import Mathlib

/-!
Shallow embedding of `DropboxSyncService`
(`src/app/features/dropbox/dropbox-sync.service.ts`) and the sync-direction
decision algorithm it drives.  Timestamps are epoch values: all stored
markers are natural numbers of milliseconds; the one place the source
divides a millisecond value by 1000 without flooring
(`const remoteClientUpdate = clientUpdate / 1000`) is modelled with exact
rational arithmetic, which agrees with the source's number semantics on all
realistic inputs.  Each network / storage interaction of one `sync()`
attempt is recorded as an event in a trace, and the external collaborators
(Dropbox API, localStorage, in-memory model, conflict dialog) are modelled
as fields of an explicit state threaded through the attempt.
-/

deriving instance DecidableEq for Except

/-- The application snapshot (`AppDataComplete`): its own
`lastLocalSyncModelChange` marker (milliseconds) plus the rest of the app
data, abstracted as one field. -/
structure AppDataComplete where
  lastLocalSyncModelChange : Nat
  payload : Nat
deriving DecidableEq, Repr

/-- The outcome type of `checkForUpdate` (`UpdateCheckResult` in
`check-for-update.util.ts`). -/
inductive UpdateCheckResult where
  | InSync
  | LocalUpdateRequired
  | RemoteUpdateRequired
  | DataDiverged
  | LastSyncNotUpToDate
deriving DecidableEq, Repr

/-- The argument object `p = \x7b local, lastSync, remote \x7d` built in
`sync()` (all three in milliseconds; `local` is a Lean keyword, hence
`localChange`). -/
structure SyncPointArg where
  localChange : Nat
  lastSync : Nat
  remote : Nat
deriving DecidableEq, Repr

/-- Observable interactions of one sync attempt, in program order:
localStorage reads/writes of the bookkeeping keys, the Dropbox API calls,
the in-memory snapshot read, the data import, and the conflict dialog. -/
inductive Ev where
  | setLastSyncCheck
  | getMetaData
  | readLastSync
  | readLocalRev
  | readInMemory
  | download
  | upload (data : AppDataComplete)
  | importData (data : AppDataComplete)
  | setLocalRev (rev : String)
  | setLocalLastSync (t : Nat)
  | openConflictDialog
deriving DecidableEq, Repr

/-- The world state a sync attempt runs against: config / token
availability, the remote file's state at Dropbox, and the local
localStorage keys and in-memory snapshot.  `lsLocalRev` and `lsLastSync`
are `Option`s because `localStorage.getItem` yields `null` when unset. -/
structure SyncState where
  isTokenAvailable : Bool
  isEnabled : Bool
  remoteRev : String
  remoteClientModifiedMs : Nat
  remoteData : AppDataComplete
  lsLocalRev : Option String
  lsLastSync : Option Nat
  inMemory : AppDataComplete
deriving DecidableEq, Repr

/-- `isEnabledAndReady$`: token available and sync enabled. -/
def isEnabledAndReady (s : SyncState) : Bool :=
  s.isTokenAvailable && s.isEnabled

/-- `_isReadyForRequests$`: the `tap` constructs
`new Error('Dropbox Sync not ready')` when not ready but never throws it,
and `first()` then completes with the boolean, so awaiting this observable
resolves regardless of readiness.  The modelled value is therefore the
plain boolean, and `sync` below discards it exactly as the source's
`await` does. -/
def isReadyForRequests (s : SyncState) : Bool :=
  isEnabledAndReady s

/-- `_getLocalRev()`: raw `localStorage.getItem`, `null` when unset. -/
def getLocalRev (s : SyncState) : Option String :=
  s.lsLocalRev

/-- `_getLocalLastSync()`: `+localStorage.getItem(...)`; `+null` is `0`,
and non-numeric content falls back to `0` via the `isNaN` check, so an
unset key reads as `0`. -/
def getLocalLastSync (s : SyncState) : Nat :=
  s.lsLastSync.getD 0

/-- `rev === localRev` where `localRev` may be `null`: a string is never
strictly equal to `null`. -/
def revMatches (rev : String) (localRev : Option String) : Bool :=
  match localRev with
  | some lr => rev == lr
  | none => false

/-- The upload-fast-path condition of `sync()` (source lines 91-95):
`Math.floor(local.lastLocalSyncModelChange / 1000) > remoteClientUpdate
&& remoteClientUpdate === Math.floor(lastSync / 1000)
&& lastSync < local.lastLocalSyncModelChange`,
with `remoteClientUpdate = clientUpdate / 1000` an exact (not floored)
division, modelled in `ℚ`. -/
def pre2Cond (localT lastSync clientUpdate : Nat) : Bool :=
  decide (((⌊(localT : ℚ) / 1000⌋ : ℤ) : ℚ) > (clientUpdate : ℚ) / 1000)
  && decide ((clientUpdate : ℚ) / 1000 = ((⌊(lastSync : ℚ) / 1000⌋ : ℤ) : ℚ))
  && decide (lastSync < localT)

/-- The upload-fast-path condition as the specification's comparison rules
describe it: ordering between the local marker and the remote-modified
time at raw millisecond precision, truncation only for the equality test.
Written from the spec's words, for comparison with `pre2Cond` above. -/
def pre2CondSpecRawOrdering (localT lastSync clientUpdate : Nat) : Bool :=
  decide ((localT : ℚ) > (clientUpdate : ℚ))
  && decide ((clientUpdate : ℚ) / 1000 = ((⌊(lastSync : ℚ) / 1000⌋ : ℤ) : ℚ))
  && decide (lastSync < localT)

/-- Modelled from the spec: `checkForUpdate` of
`check-for-update.util.ts` is not among the given sources; this follows
the spec's UpdateDecision table (first match wins):
remote = lastSync and local = lastSync gives InSync;
remote = lastSync and local > lastSync gives RemoteUpdateRequired;
local = lastSync and remote > lastSync gives LocalUpdateRequired;
remote > lastSync and local > lastSync gives DataDiverged;
otherwise LastSyncNotUpToDate. -/
def checkForUpdate (p : SyncPointArg) : UpdateCheckResult :=
  if p.remote = p.lastSync ∧ p.localChange = p.lastSync then
    UpdateCheckResult.InSync
  else if p.remote = p.lastSync ∧ p.localChange > p.lastSync then
    UpdateCheckResult.RemoteUpdateRequired
  else if p.localChange = p.lastSync ∧ p.remote > p.lastSync then
    UpdateCheckResult.LocalUpdateRequired
  else if p.remote > p.lastSync ∧ p.localChange > p.lastSync then
    UpdateCheckResult.DataDiverged
  else
    UpdateCheckResult.LastSyncNotUpToDate

/-- `_uploadAppData(data)`: upload to Dropbox (which assigns the fresh
revision `newRev` and stores `client_modified` at second resolution), then
`_setLocalRev(r.rev)` (throwing on an empty revision) and
`_setLocalLastSync(data.lastLocalSyncModelChange)`. -/
def uploadAppData (s : SyncState) (newRev : String) (data : AppDataComplete) :
    List Ev × Except String SyncState :=
  let s1 : SyncState :=
    { s with remoteRev := newRev, remoteData := data,
             remoteClientModifiedMs := 1000 * (data.lastLocalSyncModelChange / 1000) }
  if newRev = "" then
    ([Ev.upload data], Except.error "No rev given")
  else
    ([Ev.upload data, Ev.setLocalRev newRev,
      Ev.setLocalLastSync data.lastLocalSyncModelChange],
     Except.ok { s1 with lsLocalRev := some newRev,
                         lsLastSync := some data.lastLocalSyncModelChange })

/-- `_importData(data, rev)`: when `data` is missing, `_downloadAppData()`
first (which reads the local revision and downloads, yielding the remote
snapshot and its revision); then `throw new Error('No rev given')` on a
missing revision; otherwise import the snapshot into the data store and
write both bookkeeping keys. -/
def importData (s : SyncState) (data : Option AppDataComplete) (rev : String) :
    List Ev × Except String SyncState :=
  let resolved : List Ev × AppDataComplete × String :=
    match data with
    | none => ([Ev.readLocalRev, Ev.download], s.remoteData, s.remoteRev)
    | some d => ([], d, rev)
  match resolved with
  | (evs, d, r) =>
    if r = "" then
      (evs, Except.error "No rev given")
    else
      (evs ++ [Ev.importData d, Ev.setLocalRev r,
               Ev.setLocalLastSync d.lastLocalSyncModelChange],
       Except.ok { s with inMemory := d, lsLocalRev := some r,
                          lsLastSync := some d.lastLocalSyncModelChange })

/-- The tail of `sync()` from the upload fast path on: the fast-path
check, then `_downloadAppData()` and the `checkForUpdate` dispatch.
`pre` carries the events already performed, `localD` the in-memory
snapshot already read. -/
def syncAfterLocal (s : SyncState) (newRev : String) (dialogAnswer : Option String)
    (pre : List Ev) (localD : AppDataComplete) (clientUpdate lastSync : Nat) :
    List Ev × Except String SyncState :=
  if pre2Cond localD.lastLocalSyncModelChange lastSync clientUpdate then
    match uploadAppData s newRev localD with
    | (evs, res) => (pre ++ evs, res)
  else
    let dl : List Ev := [Ev.readLocalRev, Ev.download]
    let remote := s.remoteData
    let metaRev := s.remoteRev
    let p : SyncPointArg :=
      { localChange := localD.lastLocalSyncModelChange, lastSync := lastSync,
        remote := remote.lastLocalSyncModelChange }
    match checkForUpdate p with
    | UpdateCheckResult.InSync => (pre ++ dl, Except.ok s)
    | UpdateCheckResult.LocalUpdateRequired =>
      match importData s (some remote) metaRev with
      | (evs, res) => (pre ++ dl ++ evs, res)
    | UpdateCheckResult.RemoteUpdateRequired =>
      match uploadAppData s newRev localD with
      | (evs, res) => (pre ++ dl ++ evs, res)
    | UpdateCheckResult.DataDiverged =>
      if dialogAnswer = some "REMOTE" then
        match uploadAppData s newRev localD with
        | (evs, res) => (pre ++ dl ++ [Ev.openConflictDialog] ++ evs, res)
      else if dialogAnswer = some "LOCAL" then
        match importData s (some remote) metaRev with
        | (evs, res) => (pre ++ dl ++ [Ev.openConflictDialog] ++ evs, res)
      else
        (pre ++ dl ++ [Ev.openConflictDialog], Except.ok s)
    | UpdateCheckResult.LastSyncNotUpToDate =>
      (pre ++ dl ++ [Ev.setLocalLastSync localD.lastLocalSyncModelChange],
       Except.ok { s with lsLastSync := some localD.lastLocalSyncModelChange })

/-- Integer-arithmetic form of the upload-fast-path condition, used to
compute with it: the rational comparisons of `pre2Cond` reduce to these
natural-number comparisons (`pre2Cond_eq` below). -/
def pre2CondNat (localT lastSync clientUpdate : Nat) : Bool :=
  decide (clientUpdate < 1000 * (localT / 1000))
  && decide (clientUpdate = 1000 * (lastSync / 1000))
  && decide (lastSync < localT)

/-- One `sync()` attempt.  `newRev` is the revision Dropbox would assign
to an upload made by this attempt; `dialogAnswer` is what the conflict
dialog would yield (`none` when dismissed without an answer).  In program
order: awaiting `_isReadyForRequests$` (whose value is discarded and which
never throws), `_updateLocalLastSyncCheck()`, the metadata fetch, the
bookkeeping reads, the same-revision early return, the upload fast path,
and the general download-and-dispatch path. -/
def sync (s : SyncState) (newRev : String) (dialogAnswer : Option String) :
    List Ev × Except String SyncState :=
  let _isReady := isReadyForRequests s
  let rev := s.remoteRev
  let clientUpdate := s.remoteClientModifiedMs
  let lastSync := getLocalLastSync s
  let localRev := getLocalRev s
  let pre : List Ev :=
    [Ev.setLastSyncCheck, Ev.getMetaData, Ev.readLastSync, Ev.readLocalRev]
  if revMatches rev localRev then
    let localD := s.inMemory
    if lastSync = localD.lastLocalSyncModelChange then
      (pre ++ [Ev.readInMemory], Except.ok s)
    else
      syncAfterLocal s newRev dialogAnswer (pre ++ [Ev.readInMemory]) localD
        clientUpdate lastSync
  else
    let localD := s.inMemory
    syncAfterLocal s newRev dialogAnswer (pre ++ [Ev.readInMemory]) localD
      clientUpdate lastSync

/-- `rev === localRev` holds iff the stored revision is exactly the
fetched one. -/
theorem revMatches_iff (rev : String) (lr : Option String) :
    revMatches rev lr = true ↔ lr = some rev := by
  cases lr with
  | none => simp [revMatches]
  | some r =>
    simp only [revMatches, beq_iff_eq, Option.some.injEq]
    exact ⟨fun h => h.symm, fun h => h.symm⟩

/-- Floor of a natural number divided by 1000 in `ℚ` is natural
division. -/
theorem floor_natCast_div_thousand (n : Nat) :
    ⌊(n : ℚ) / 1000⌋ = ((n / 1000 : Nat) : ℤ) := by
  have h : ((1000 : ℚ)) = ((1000 : ℕ) : ℚ) := by norm_num
  rw [h, Rat.floor_natCast_div_natCast]
  exact (Int.ofNat_div n 1000).symm

/-- The source's rational fast-path condition computed over `ℕ`:
`Math.floor(local/1000) > clientUpdate/1000` amounts to
`clientUpdate < 1000 * (local / 1000)`, and
`clientUpdate/1000 === Math.floor(lastSync/1000)` amounts to
`clientUpdate = 1000 * (lastSync / 1000)`. -/
theorem pre2Cond_eq (l ls cu : Nat) : pre2Cond l ls cu = pre2CondNat l ls cu := by
  unfold pre2Cond pre2CondNat
  rw [floor_natCast_div_thousand, floor_natCast_div_thousand]
  congr 2
  · rw [decide_eq_decide, gt_iff_lt, div_lt_iff₀ (by norm_num : (0:ℚ) < 1000)]
    norm_cast
    omega
  · rw [decide_eq_decide, div_eq_iff (by norm_num : (1000:ℚ) ≠ 0)]
    norm_cast
    omega

/-- The spec-worded variant computed over `ℕ`: raw ordering between the
markers, truncation only in the equality test. -/
theorem pre2CondSpecRawOrdering_eq (l ls cu : Nat) :
    pre2CondSpecRawOrdering l ls cu =
      (decide (cu < l) && decide (cu = 1000 * (ls / 1000)) && decide (ls < l)) := by
  unfold pre2CondSpecRawOrdering
  rw [floor_natCast_div_thousand]
  congr 2
  · rw [decide_eq_decide, gt_iff_lt]
    exact_mod_cast Iff.rfl
  · rw [decide_eq_decide, div_eq_iff (by norm_num : (1000:ℚ) ≠ 0)]
    norm_cast
    omega

/-- `true` iff the trace contains an upload. -/
def hasUpload : List Ev → Bool
  | [] => false
  | Ev.upload _ :: _ => true
  | _ :: rest => hasUpload rest

/-- `true` iff the trace contains a data import. -/
def hasImport : List Ev → Bool
  | [] => false
  | Ev.importData _ :: _ => true
  | _ :: rest => hasImport rest

/-- `true` iff the trace contains a download. -/
def hasDownload : List Ev → Bool
  | [] => false
  | Ev.download :: _ => true
  | _ :: rest => hasDownload rest

/-- `true` iff the trace contains a write of the cached revision. -/
def hasSetRev : List Ev → Bool
  | [] => false
  | Ev.setLocalRev _ :: _ => true
  | _ :: rest => hasSetRev rest

/-- `true` iff the trace contains a write of the last-sync time. -/
def hasSetLastSync : List Ev → Bool
  | [] => false
  | Ev.setLocalLastSync _ :: _ => true
  | _ :: rest => hasSetLastSync rest

/-- Checks, along a trace, that every write of the cached revision is
immediately preceded by the upload or import of a snapshot `d` and
immediately followed by a write of the last-sync time equal to
`d.lastLocalSyncModelChange`: the pairing invariant of the bookkeeping
writes. -/
def revWriteOK : List Ev → Bool
  | Ev.upload d :: Ev.setLocalRev _ :: Ev.setLocalLastSync t :: rest =>
    decide (t = d.lastLocalSyncModelChange) && revWriteOK rest
  | Ev.importData d :: Ev.setLocalRev _ :: Ev.setLocalLastSync t :: rest =>
    decide (t = d.lastLocalSyncModelChange) && revWriteOK rest
  | Ev.setLocalRev _ :: _ => false
  | _ :: rest => revWriteOK rest
  | [] => true

/-- Checks that no bookkeeping read (`readLastSync`, `readLocalRev`)
occurs after a network event (`getMetaData`, `download`, `upload`); the
flag records whether a network event has been seen. -/
def readsBeforeNetAux : Bool → List Ev → Bool
  | _, [] => true
  | _, Ev.getMetaData :: rest => readsBeforeNetAux true rest
  | _, Ev.download :: rest => readsBeforeNetAux true rest
  | _, Ev.upload _ :: rest => readsBeforeNetAux true rest
  | seenNet, Ev.readLastSync :: rest => !seenNet && readsBeforeNetAux seenNet rest
  | seenNet, Ev.readLocalRev :: rest => !seenNet && readsBeforeNetAux seenNet rest
  | seenNet, _ :: rest => readsBeforeNetAux seenNet rest

/-- All bookkeeping reads precede every network event of the trace. -/
def readsBeforeNet (tr : List Ev) : Bool :=
  readsBeforeNetAux false tr

/-- Checks that no bookkeeping read occurs after a data transfer
(`download`, `upload`, `importData`). -/
def readsBeforeTransferAux : Bool → List Ev → Bool
  | _, [] => true
  | _, Ev.download :: rest => readsBeforeTransferAux true rest
  | _, Ev.upload _ :: rest => readsBeforeTransferAux true rest
  | _, Ev.importData _ :: rest => readsBeforeTransferAux true rest
  | seen, Ev.readLastSync :: rest => !seen && readsBeforeTransferAux seen rest
  | seen, Ev.readLocalRev :: rest => !seen && readsBeforeTransferAux seen rest
  | seen, _ :: rest => readsBeforeTransferAux seen rest

/-- All bookkeeping reads precede every data transfer of the trace. -/
def readsBeforeTransfer (tr : List Ev) : Bool :=
  readsBeforeTransferAux false tr

/-- Checks that every bookkeeping write (`setLocalRev`,
`setLocalLastSync`) occurs only after an upload or import completed. -/
def writesOnlyAfterUploadOrImportAux : Bool → List Ev → Bool
  | _, [] => true
  | _, Ev.upload _ :: rest => writesOnlyAfterUploadOrImportAux true rest
  | _, Ev.importData _ :: rest => writesOnlyAfterUploadOrImportAux true rest
  | seen, Ev.setLocalRev _ :: rest => seen && writesOnlyAfterUploadOrImportAux seen rest
  | seen, Ev.setLocalLastSync _ :: rest => seen && writesOnlyAfterUploadOrImportAux seen rest
  | seen, _ :: rest => writesOnlyAfterUploadOrImportAux seen rest

/-- Every bookkeeping write of the trace follows a completed upload or
import. -/
def writesOnlyAfterUploadOrImport (tr : List Ev) : Bool :=
  writesOnlyAfterUploadOrImportAux false tr

/-- Checks that every bookkeeping write occurs only after some completed
transfer, a download included. -/
def writesOnlyAfterTransferAux : Bool → List Ev → Bool
  | _, [] => true
  | _, Ev.upload _ :: rest => writesOnlyAfterTransferAux true rest
  | _, Ev.importData _ :: rest => writesOnlyAfterTransferAux true rest
  | _, Ev.download :: rest => writesOnlyAfterTransferAux true rest
  | seen, Ev.setLocalRev _ :: rest => seen && writesOnlyAfterTransferAux seen rest
  | seen, Ev.setLocalLastSync _ :: rest => seen && writesOnlyAfterTransferAux seen rest
  | seen, _ :: rest => writesOnlyAfterTransferAux seen rest

/-- Every bookkeeping write of the trace follows a completed transfer
(upload, import, or download). -/
def writesOnlyAfterTransfer (tr : List Ev) : Bool :=
  writesOnlyAfterTransferAux false tr

/-- The same-revision early return: when the fetched revision equals the
cached one and the cached last-sync time equals the in-memory snapshot's
change marker, `sync` returns after the bookkeeping reads with the state
untouched. -/
theorem sync_pre1 (s : SyncState) (nr : String) (ans : Option String)
    (h1 : s.lsLocalRev = some s.remoteRev)
    (h2 : getLocalLastSync s = s.inMemory.lastLocalSyncModelChange) :
    sync s nr ans =
      ([Ev.setLastSyncCheck, Ev.getMetaData, Ev.readLastSync, Ev.readLocalRev,
        Ev.readInMemory], Except.ok s) := by
  unfold sync
  simp [getLocalRev, h1, revMatches, h2]

/-- C6: in every `sync` trace, each write of the cached revision is
immediately preceded by the successful upload or import of a snapshot `d`
and immediately followed by a write of the last-sync time equal to
`d.lastLocalSyncModelChange` — the revision is written only right after a
completed transfer, always paired at that moment with the matching
last-sync write. -/
theorem revWriteOK_sync (s : SyncState) (nr : String) (ans : Option String) :
    revWriteOK (sync s nr ans).1 = true := by
  simp only [sync, syncAfterLocal, uploadAppData, importData]
  repeat' split
  all_goals simp [revWriteOK]

/-- `true` iff the same-revision early return of `sync` fires: cached
revision equals the fetched one and the cached last-sync time equals the
in-memory snapshot's change marker. -/
def revFastPathStops (s : SyncState) : Bool :=
  revMatches s.remoteRev (getLocalRev s)
  && decide (getLocalLastSync s = s.inMemory.lastLocalSyncModelChange)

/-- When the early return does not fire, `sync` continues into
`syncAfterLocal` with the five preliminary events performed. -/
theorem sync_eq_syncAfterLocal (s : SyncState) (nr : String) (ans : Option String)
    (h : revFastPathStops s = false) :
    sync s nr ans =
      syncAfterLocal s nr ans
        [Ev.setLastSyncCheck, Ev.getMetaData, Ev.readLastSync, Ev.readLocalRev,
         Ev.readInMemory]
        s.inMemory s.remoteClientModifiedMs (getLocalLastSync s) := by
  unfold sync
  unfold revFastPathStops at h
  rcases hm : revMatches s.remoteRev (getLocalRev s) with _ | _
  · simp [hm]
  · rw [hm] at h
    simp only [Bool.true_and] at h
    simp [hm, of_decide_eq_false h]

/-- A state whose general path reaches `LastSyncNotUpToDate`: stored
last-sync (2000) is ahead of both the local marker (1000) and the remote
snapshot's marker (500), and neither fast path applies. -/
def sC1 : SyncState :=
  { isTokenAvailable := true, isEnabled := true, remoteRev := "b",
    remoteClientModifiedMs := 600, remoteData := ⟨500, 0⟩,
    lsLocalRev := some "a", lsLastSync := some 2000, inMemory := ⟨1000, 3⟩ }

/-- C1: `checkForUpdate` realises the five-row priority table — equal on
both sides gives `InSync`; only local ahead gives `RemoteUpdateRequired`;
only remote ahead gives `LocalUpdateRequired`; both ahead gives
`DataDiverged` regardless of their mutual order; every remaining case
gives `LastSyncNotUpToDate`, whose dispatch in `sync` advances the stored
last-sync time to the local marker and transfers no data (no upload, no
import). -/
theorem checkForUpdate_decision_table :
    (∀ l r ls : Nat,
      (r = ls → l = ls → checkForUpdate ⟨l, ls, r⟩ = UpdateCheckResult.InSync)
      ∧ (r = ls → l > ls → checkForUpdate ⟨l, ls, r⟩ = UpdateCheckResult.RemoteUpdateRequired)
      ∧ (l = ls → r > ls → checkForUpdate ⟨l, ls, r⟩ = UpdateCheckResult.LocalUpdateRequired)
      ∧ (r > ls → l > ls → checkForUpdate ⟨l, ls, r⟩ = UpdateCheckResult.DataDiverged)
      ∧ (¬(r = ls ∧ l = ls) → ¬(r = ls ∧ l > ls) → ¬(l = ls ∧ r > ls) →
         ¬(r > ls ∧ l > ls) →
         checkForUpdate ⟨l, ls, r⟩ = UpdateCheckResult.LastSyncNotUpToDate))
    ∧ (∀ (s : SyncState) (nr : String) (ans : Option String),
        revFastPathStops s = false →
        pre2Cond s.inMemory.lastLocalSyncModelChange (getLocalLastSync s)
          s.remoteClientModifiedMs = false →
        checkForUpdate ⟨s.inMemory.lastLocalSyncModelChange, getLocalLastSync s,
          s.remoteData.lastLocalSyncModelChange⟩ = UpdateCheckResult.LastSyncNotUpToDate →
        sync s nr ans =
          ([Ev.setLastSyncCheck, Ev.getMetaData, Ev.readLastSync, Ev.readLocalRev,
            Ev.readInMemory, Ev.readLocalRev, Ev.download,
            Ev.setLocalLastSync s.inMemory.lastLocalSyncModelChange],
           Except.ok { s with lsLastSync := some s.inMemory.lastLocalSyncModelChange })) := by
  constructor
  · intro l r ls
    refine ⟨?_, ?_, ?_, ?_, ?_⟩
    · intro h1 h2
      simp [checkForUpdate, h1, h2]
    · intro h1 h2
      have hne : ¬(l = ls) := by omega
      simp [checkForUpdate, h1, h2, hne]
    · intro h1 h2
      have hne : ¬(r = ls) := by omega
      simp [checkForUpdate, h1, h2, hne]
    · intro h1 h2
      have hne : ¬(r = ls) := by omega
      have hne2 : ¬(l = ls) := by omega
      simp [checkForUpdate, h1, h2, hne, hne2]
    · intro h1 h2 h3 h4
      simp [checkForUpdate, h1, h2, h3, h4]
  · intro s nr ans h1 h2 h3
    rw [sync_eq_syncAfterLocal s nr ans h1]
    unfold syncAfterLocal
    simp [h2, h3]

/-- Witness for C1: each hypothesised row instantiated (2000/1000/1000,
1000/1000/2000, 2500/1000/3000 with remote larger, 1000/2000/500 stale),
and the stale dispatch run on the concrete state `sC1`. -/
theorem checkForUpdate_decision_table_witness :
    checkForUpdate ⟨2000, 1000, 1000⟩ = UpdateCheckResult.RemoteUpdateRequired
    ∧ checkForUpdate ⟨1000, 1000, 2000⟩ = UpdateCheckResult.LocalUpdateRequired
    ∧ checkForUpdate ⟨2500, 1000, 3000⟩ = UpdateCheckResult.DataDiverged
    ∧ checkForUpdate ⟨1000, 1000, 1000⟩ = UpdateCheckResult.InSync
    ∧ checkForUpdate ⟨1000, 2000, 500⟩ = UpdateCheckResult.LastSyncNotUpToDate
    ∧ sync sC1 "r2" none =
        ([Ev.setLastSyncCheck, Ev.getMetaData, Ev.readLastSync, Ev.readLocalRev,
          Ev.readInMemory, Ev.readLocalRev, Ev.download, Ev.setLocalLastSync 1000],
         Except.ok { sC1 with lsLastSync := some 1000 }) :=
  ⟨(checkForUpdate_decision_table.1 2000 1000 1000).2.1 rfl (by decide),
   (checkForUpdate_decision_table.1 1000 2000 1000).2.2.1 rfl (by decide),
   (checkForUpdate_decision_table.1 2500 3000 1000).2.2.2.1 (by decide) (by decide),
   (checkForUpdate_decision_table.1 1000 1000 1000).1 rfl rfl,
   (checkForUpdate_decision_table.1 1000 500 2000).2.2.2.2
     (by decide) (by decide) (by decide) (by decide),
   checkForUpdate_decision_table.2 sC1 "r2" none (by decide)
     (by simp only [pre2Cond_eq]; decide) (by decide)⟩

/-- A state in which the sync capability gate fails: the feature is
disabled. -/
def sC3 : SyncState :=
  { isTokenAvailable := true, isEnabled := false, remoteRev := "r1",
    remoteClientModifiedMs := 0, remoteData := ⟨0, 0⟩, lsLocalRev := none,
    lsLastSync := none, inMemory := ⟨0, 0⟩ }

/-- C3 (observed defect): with sync disabled the readiness gate reports
not ready, yet the attempt still proceeds to the metadata network call and
runs to completion — the source's `tap` constructs the "not ready" error
without throwing it. -/
theorem sync_not_ready_still_calls_network :
    isReadyForRequests sC3 = false
    ∧ Ev.getMetaData ∈ (sync sC3 "r2" none).1
    ∧ (sync sC3 "r2" none).2 = Except.ok sC3 := by
  have hev : sync sC3 "r2" none =
      ([Ev.setLastSyncCheck, Ev.getMetaData, Ev.readLastSync, Ev.readLocalRev,
        Ev.readInMemory, Ev.readLocalRev, Ev.download], Except.ok sC3) := by
    simp only [sync, syncAfterLocal, uploadAppData, importData, getLocalRev,
      getLocalLastSync, revMatches, checkForUpdate, pre2Cond_eq, sC3]
    decide
  rw [hev]
  exact ⟨rfl, by decide, rfl⟩

/-- A state on the revision fast path: cached revision equals the remote
one and the cached last-sync time equals the in-memory marker. -/
def sC4 : SyncState :=
  { isTokenAvailable := true, isEnabled := true, remoteRev := "a",
    remoteClientModifiedMs := 5000, remoteData := ⟨5000, 3⟩,
    lsLocalRev := some "a", lsLastSync := some 5000, inMemory := ⟨5000, 3⟩ }

/-- C4: when the fetched revision equals the cached `lastKnownRevision`
and the snapshot's `lastLocalSyncModelChange` equals the cached
`lastSyncTime`, the attempt stops after the bookkeeping reads: no
download, no upload, no import, state unchanged. -/
theorem rev_fast_path_no_download (s : SyncState) (nr : String) (ans : Option String)
    (h1 : s.lsLocalRev = some s.remoteRev)
    (h2 : getLocalLastSync s = s.inMemory.lastLocalSyncModelChange) :
    hasDownload (sync s nr ans).1 = false
    ∧ hasUpload (sync s nr ans).1 = false
    ∧ hasImport (sync s nr ans).1 = false
    ∧ (sync s nr ans).2 = Except.ok s := by
  rw [sync_pre1 s nr ans h1 h2]
  exact ⟨rfl, rfl, rfl, rfl⟩

/-- Witness for C4 at the concrete state `sC4`. -/
theorem rev_fast_path_no_download_witness :
    sC4.lsLocalRev = some sC4.remoteRev
    ∧ getLocalLastSync sC4 = sC4.inMemory.lastLocalSyncModelChange
    ∧ (hasDownload (sync sC4 "x" none).1 = false
       ∧ hasUpload (sync sC4 "x" none).1 = false
       ∧ hasImport (sync sC4 "x" none).1 = false
       ∧ (sync sC4 "x" none).2 = Except.ok sC4) :=
  ⟨rfl, rfl, rev_fast_path_no_download sC4 "x" none rfl rfl⟩

/-- A diverged state: both the local marker (2500) and the remote
snapshot's marker (3000) are ahead of the stored last-sync (1000), and
neither fast path applies. -/
def sC9 : SyncState :=
  { isTokenAvailable := true, isEnabled := true, remoteRev := "b",
    remoteClientModifiedMs := 600, remoteData := ⟨3000, 9⟩,
    lsLocalRev := some "a", lsLastSync := some 1000, inMemory := ⟨2500, 5⟩ }

/-- C9: on a `DataDiverged` decision with a deferred (or absent) dialog
answer, the attempt ends successfully with no upload, no import and no
bookkeeping write — the returned state is the input state, so the next
attempt recomputes the same diverged decision from identical inputs. -/
theorem diverged_defer_no_effect (s : SyncState) (nr : String) (ans : Option String)
    (h1 : revFastPathStops s = false)
    (h2 : pre2Cond s.inMemory.lastLocalSyncModelChange (getLocalLastSync s)
      s.remoteClientModifiedMs = false)
    (h3 : checkForUpdate ⟨s.inMemory.lastLocalSyncModelChange, getLocalLastSync s,
      s.remoteData.lastLocalSyncModelChange⟩ = UpdateCheckResult.DataDiverged)
    (h4 : ans ≠ some "REMOTE") (h5 : ans ≠ some "LOCAL") :
    sync s nr ans =
      ([Ev.setLastSyncCheck, Ev.getMetaData, Ev.readLastSync, Ev.readLocalRev,
        Ev.readInMemory, Ev.readLocalRev, Ev.download, Ev.openConflictDialog],
       Except.ok s) := by
  rw [sync_eq_syncAfterLocal s nr ans h1]
  unfold syncAfterLocal
  simp [h2, h3, h4, h5]

/-- Witness for C9 at the concrete diverged state `sC9` with a "DEFER"
dialog answer. -/
theorem diverged_defer_no_effect_witness :
    revFastPathStops sC9 = false
    ∧ checkForUpdate ⟨sC9.inMemory.lastLocalSyncModelChange, getLocalLastSync sC9,
        sC9.remoteData.lastLocalSyncModelChange⟩ = UpdateCheckResult.DataDiverged
    ∧ sync sC9 "r2" (some "DEFER") =
        ([Ev.setLastSyncCheck, Ev.getMetaData, Ev.readLastSync, Ev.readLocalRev,
          Ev.readInMemory, Ev.readLocalRev, Ev.download, Ev.openConflictDialog],
         Except.ok sC9) :=
  ⟨by decide, by decide,
   diverged_defer_no_effect sC9 "r2" (some "DEFER") (by decide)
     (by simp only [pre2Cond_eq]; decide) (by decide) (by decide) (by decide)⟩

/-- A state whose remote revision is the empty string: a download yields
no usable revision token. -/
def sC7 : SyncState :=
  { isTokenAvailable := true, isEnabled := true, remoteRev := "",
    remoteClientModifiedMs := 0, remoteData := ⟨700, 4⟩, lsLocalRev := none,
    lsLastSync := none, inMemory := ⟨100, 1⟩ }

/-- Like `sC7` but with a proper remote revision. -/
def sC7b : SyncState :=
  { isTokenAvailable := true, isEnabled := true, remoteRev := "r9",
    remoteClientModifiedMs := 0, remoteData := ⟨700, 4⟩, lsLocalRev := none,
    lsLastSync := none, inMemory := ⟨100, 1⟩ }

/-- C7: `_importData` never completes without a revision token — on any
failure nothing is imported and no bookkeeping key is written, and when it
is entered without data (hence without a token) the download is performed
before the import completes. -/
theorem importData_requires_rev (s : SyncState) (data : Option AppDataComplete) (rev : String) :
    (∀ e, (importData s data rev).2 = Except.error e →
      hasImport (importData s data rev).1 = false
      ∧ hasSetRev (importData s data rev).1 = false
      ∧ hasSetLastSync (importData s data rev).1 = false)
    ∧ (∀ s', data = none → (importData s data rev).2 = Except.ok s' →
      (importData s data rev).1 =
        [Ev.readLocalRev, Ev.download, Ev.importData s.remoteData,
         Ev.setLocalRev s.remoteRev,
         Ev.setLocalLastSync s.remoteData.lastLocalSyncModelChange]) := by
  cases data with
  | none =>
    refine ⟨?_, ?_⟩
    · intro e he
      by_cases hr : s.remoteRev = ""
      · simp [importData, hr, hasImport, hasSetRev, hasSetLastSync]
      · simp [importData, hr] at he
    · intro s' _ hok
      by_cases hr : s.remoteRev = ""
      · simp [importData, hr] at hok
      · simp [importData, hr]
  | some d =>
    refine ⟨?_, ?_⟩
    · intro e he
      by_cases hr : rev = ""
      · simp [importData, hr, hasImport, hasSetRev, hasSetLastSync]
      · simp [importData, hr] at he
    · intro s' hnone _
      exact absurd hnone (by simp)

/-- Witness for C7: a failing import at `sC7` (empty remote revision)
writes nothing, and a completing import entered without data at `sC7b`
downloads before importing. -/
theorem importData_requires_rev_witness :
    (importData sC7 none "x").2 = Except.error "No rev given"
    ∧ (hasImport (importData sC7 none "x").1 = false
       ∧ hasSetRev (importData sC7 none "x").1 = false
       ∧ hasSetLastSync (importData sC7 none "x").1 = false)
    ∧ (importData sC7b none "x").1 =
        [Ev.readLocalRev, Ev.download, Ev.importData sC7b.remoteData,
         Ev.setLocalRev sC7b.remoteRev,
         Ev.setLocalLastSync sC7b.remoteData.lastLocalSyncModelChange] :=
  ⟨by decide,
   (importData_requires_rev sC7 none "x").1 "No rev given" (by decide),
   (importData_requires_rev sC7b none "x").2
     { sC7b with inMemory := ⟨700, 4⟩, lsLocalRev := some "r9", lsLastSync := some 700 }
     rfl (by decide)⟩

/-- A state in which the timestamp conditions of the upload fast path hold
while the fetched revision differs from the cached one. -/
def sC2 : SyncState :=
  { isTokenAvailable := true, isEnabled := true, remoteRev := "b",
    remoteClientModifiedMs := 1000, remoteData := ⟨100, 0⟩,
    lsLocalRev := some "a", lsLastSync := some 1500, inMemory := ⟨2500, 7⟩ }

/-- Counterexample to C2: at `sC2` the fetched revision "b" differs from
the cached revision "a", yet the attempt uploads without ever downloading
— the upload fast path is not guarded by the token-equality check. -/
theorem upload_fast_path_without_token_equality :
    revMatches sC2.remoteRev (getLocalRev sC2) = false
    ∧ hasUpload (sync sC2 "c" none).1 = true
    ∧ hasDownload (sync sC2 "c" none).1 = false := by
  have hev : sync sC2 "c" none =
      ([Ev.setLastSyncCheck, Ev.getMetaData, Ev.readLastSync, Ev.readLocalRev,
        Ev.readInMemory, Ev.upload ⟨2500, 7⟩, Ev.setLocalRev "c",
        Ev.setLocalLastSync 2500],
       Except.ok { sC2 with remoteRev := "c", remoteData := ⟨2500, 7⟩,
                            remoteClientModifiedMs := 2000, lsLocalRev := some "c",
                            lsLastSync := some 2500 }) := by
    simp only [sync, syncAfterLocal, uploadAppData, importData, getLocalRev,
      getLocalLastSync, revMatches, checkForUpdate, pre2Cond_eq, sC2]
    decide
  exact ⟨by decide, by rw [hev]; decide, by rw [hev]; decide⟩

/-- C2 (amended): an attempt uploads without downloading exactly when the
three timestamp conditions of the source's fast-path check hold — the
truncated local marker exceeds the remote-modified time, the
remote-modified time equals the truncated stored last-sync, and the raw
last-sync is below the raw local marker; the revision tokens play no role
in this branch. -/
theorem upload_fast_path_iff_timestamp_conditions (s : SyncState) (nr : String)
    (ans : Option String) :
    (hasUpload (sync s nr ans).1 && !hasDownload (sync s nr ans).1) =
      pre2Cond s.inMemory.lastLocalSyncModelChange (getLocalLastSync s)
        s.remoteClientModifiedMs := by
  simp only [sync, syncAfterLocal, uploadAppData, importData]
  repeat' split
  all_goals simp_all [hasUpload, hasDownload, pre2Cond_eq, pre2CondNat]
  all_goals omega

/-- Counterexample to C5: at local marker 2500 ms, stored last-sync
2000 ms and remote-modified time 2000 ms, the source's condition is false
(it floors the local marker to 2 s before the greater-than test against
2 s), while the spec's rule — raw-millisecond ordering, truncation only
for equality — would make it true. -/
theorem truncated_ordering_counterexample :
    pre2Cond 2500 2000 2000 = false
    ∧ pre2CondSpecRawOrdering 2500 2000 2000 = true := by
  constructor
  · rw [pre2Cond_eq]; decide
  · rw [pre2CondSpecRawOrdering_eq]; decide

/-- C5 (amended): in the fast-path comparison against the remote-modified
time, the local marker is truncated to whole seconds both for the equality
test and for the greater-than test; raw millisecond precision is used only
in the local-versus-local guard `lastSync < local`. -/
theorem pre2Cond_truncation_characterization (l ls cu : Nat) :
    pre2Cond l ls cu =
      (decide (cu < 1000 * (l / 1000)) && decide (cu = 1000 * (ls / 1000))
       && decide (ls < l)) := by
  rw [pre2Cond_eq]
  rfl

/-- A stale-bookkeeping state: the stored last-sync (3000) is ahead of
both the local marker (1200) and the remote snapshot's marker (600). -/
def sC8 : SyncState :=
  { isTokenAvailable := true, isEnabled := true, remoteRev := "b2",
    remoteClientModifiedMs := 700, remoteData := ⟨600, 0⟩,
    lsLocalRev := some "a2", lsLastSync := some 3000, inMemory := ⟨1200, 3⟩ }

/-- Counterexample to C8: the metadata network call precedes the
bookkeeping reads in every attempt (shown at `sC8`), and the stale-repair
branch writes the last-sync time without any upload or import having
completed. -/
theorem bookkeeping_read_after_network_counterexample :
    readsBeforeNet (sync sC8 "r2" none).1 = false
    ∧ hasSetLastSync (sync sC8 "r2" none).1 = true
    ∧ writesOnlyAfterUploadOrImport (sync sC8 "r2" none).1 = false := by
  have hev : sync sC8 "r2" none =
      ([Ev.setLastSyncCheck, Ev.getMetaData, Ev.readLastSync, Ev.readLocalRev,
        Ev.readInMemory, Ev.readLocalRev, Ev.download, Ev.setLocalLastSync 1200],
       Except.ok { sC8 with lsLastSync := some 1200 }) := by
    simp only [sync, syncAfterLocal, uploadAppData, importData, getLocalRev,
      getLocalLastSync, revMatches, checkForUpdate, pre2Cond_eq, sC8]
    decide
  exact ⟨by rw [hev]; decide, by rw [hev]; decide, by rw [hev]; decide⟩

/-- C8 (amended): every attempt starts with the attempt-observed write and
the metadata fetch, in that order — so the bookkeeping reads come after
that first network call, not before it; the bookkeeping reads all precede
every data transfer (download, upload, import), and every bookkeeping
write follows some completed transfer: the paired revision/last-sync
writes follow their upload or import, and the stale-repair last-sync write
follows the completed download. -/
theorem sync_io_ordering (s : SyncState) (nr : String) (ans : Option String) :
    (sync s nr ans).1.take 2 = [Ev.setLastSyncCheck, Ev.getMetaData]
    ∧ readsBeforeTransfer (sync s nr ans).1 = true
    ∧ writesOnlyAfterTransfer (sync s nr ans).1 = true := by
  refine ⟨?_, ?_, ?_⟩ <;>
    simp only [sync, syncAfterLocal, uploadAppData, importData] <;>
    repeat' split
  all_goals
    simp [readsBeforeTransfer, readsBeforeTransferAux, writesOnlyAfterTransfer,
      writesOnlyAfterTransferAux]

/-- An already-synchronised state whose cached revision nonetheless
differs from the remote one (the general-path `InSync` branch never
refreshes it). -/
def sC10x : SyncState :=
  { isTokenAvailable := true, isEnabled := true, remoteRev := "b3",
    remoteClientModifiedMs := 4000, remoteData := ⟨4000, 1⟩,
    lsLocalRev := some "a3", lsLastSync := some 4000, inMemory := ⟨4000, 1⟩ }

/-- Counterexample to C10: at `sC10x` a full attempt completes leaving the
state unchanged (general-path `InSync`, which never stores the fresh
revision), so the next attempt — run from the very same state — performs a
download again: the second run is not transfer-free. -/
theorem second_run_still_downloads :
    (sync sC10x "r1" none).2 = Except.ok sC10x
    ∧ hasUpload (sync sC10x "r1" none).1 = false
    ∧ hasImport (sync sC10x "r1" none).1 = false
    ∧ hasDownload (sync sC10x "r1" none).1 = true
    ∧ hasDownload (sync sC10x "r2" none).1 = true := by
  have hev1 : sync sC10x "r1" none =
      ([Ev.setLastSyncCheck, Ev.getMetaData, Ev.readLastSync, Ev.readLocalRev,
        Ev.readInMemory, Ev.readLocalRev, Ev.download], Except.ok sC10x) := by
    simp only [sync, syncAfterLocal, uploadAppData, importData, getLocalRev,
      getLocalLastSync, revMatches, checkForUpdate, pre2Cond_eq, sC10x]
    decide
  have hev2 : sync sC10x "r2" none =
      ([Ev.setLastSyncCheck, Ev.getMetaData, Ev.readLastSync, Ev.readLocalRev,
        Ev.readInMemory, Ev.readLocalRev, Ev.download], Except.ok sC10x) := by
    simp only [sync, syncAfterLocal, uploadAppData, importData, getLocalRev,
      getLocalLastSync, revMatches, checkForUpdate, pre2Cond_eq, sC10x]
    decide
  exact ⟨by rw [hev1], by rw [hev1]; decide, by rw [hev1]; decide,
    by rw [hev1]; decide, by rw [hev2]; decide⟩

/-- C10 (amended): when an attempt succeeds and recorded a revision (it
completed an upload or an import), the immediately following attempt,
running from the resulting state with no external change, stops at the
revision fast path: only the bookkeeping reads happen — no download, no
upload, no import — and the state is returned unchanged. -/
theorem second_run_after_recorded_transfer (s : SyncState) (nr1 nr2 : String)
    (ans1 ans2 : Option String) (s' : SyncState)
    (hok : (sync s nr1 ans1).2 = Except.ok s')
    (hwrote : hasSetRev (sync s nr1 ans1).1 = true) :
    sync s' nr2 ans2 =
      ([Ev.setLastSyncCheck, Ev.getMetaData, Ev.readLastSync, Ev.readLocalRev,
        Ev.readInMemory], Except.ok s') := by
  have h : (sync s nr1 ans1).2 = Except.ok s'
      ∧ hasSetRev (sync s nr1 ans1).1 = true := ⟨hok, hwrote⟩
  clear hok hwrote
  simp only [sync, syncAfterLocal, uploadAppData, importData] at h
  repeat' split at h
  all_goals simp [hasSetRev] at h
  all_goals (subst h; exact sync_pre1 _ _ _ rfl rfl)

/-- A state that takes the upload fast path on its first attempt. -/
def sC10 : SyncState :=
  { isTokenAvailable := true, isEnabled := true, remoteRev := "b4",
    remoteClientModifiedMs := 1000, remoteData := ⟨100, 0⟩,
    lsLocalRev := some "a4", lsLastSync := some 1500, inMemory := ⟨2500, 7⟩ }

/-- The state after `sC10` uploads with fresh revision "n1". -/
def sC10after : SyncState :=
  { isTokenAvailable := true, isEnabled := true, remoteRev := "n1",
    remoteClientModifiedMs := 2000, remoteData := ⟨2500, 7⟩,
    lsLocalRev := some "n1", lsLastSync := some 2500, inMemory := ⟨2500, 7⟩ }

/-- Witness for the amended C10: the first attempt at `sC10` uploads and
records the revision; the second attempt, from the resulting state, stops
at the revision fast path with no transfer. -/
theorem second_run_after_recorded_transfer_witness :
    (sync sC10 "n1" none).2 = Except.ok sC10after
    ∧ hasSetRev (sync sC10 "n1" none).1 = true
    ∧ sync sC10after "n2" none =
        ([Ev.setLastSyncCheck, Ev.getMetaData, Ev.readLastSync, Ev.readLocalRev,
          Ev.readInMemory], Except.ok sC10after) := by
  have h1 : (sync sC10 "n1" none).2 = Except.ok sC10after := by
    simp only [sync, syncAfterLocal, uploadAppData, importData, getLocalRev,
      getLocalLastSync, revMatches, checkForUpdate, pre2Cond_eq, sC10, sC10after]
    decide
  have h2 : hasSetRev (sync sC10 "n1" none).1 = true := by
    simp only [sync, syncAfterLocal, uploadAppData, importData, getLocalRev,
      getLocalLastSync, revMatches, checkForUpdate, pre2Cond_eq, sC10]
    decide
  exact ⟨h1, h2,
    second_run_after_recorded_transfer sC10 "n1" "n2" none none sC10after h1 h2⟩
